import Mathlib

/-!
Verification of the `ureq` HTTP transport of sentry-rust
(`src/sentry/src/transports/ureq.rs`) against its natural-language
specification.

The transport code is embedded shallowly:

* `Scheme`, `Dsn`, `ClientOptions`, `Envelope` model the external
  collaborators exactly at the interface the transport consumes.
* `selectProxy`, `buildAgent`, `new_internal` embed the construction path
  (`UreqHttpTransport::new_internal`); proxy parsing (`ureq::Proxy::new`)
  is an external library call and is therefore a parameter.
* `deliver` embeds the delivery closure handed to the transport thread,
  producing an explicit event trace (HTTP post, rate-limiter calls, body
  read, debug logs) plus a panicked/returned outcome.
* The delivery worker (`TransportThread`, whose source is outside the
  file under study) is modelled from the spec's worker contract, and the
  `Transport` trait impl (facade) is embedded on top of it.
-/

/-- Scheme of a DSN: plain (`http`) or secure (`https`).
Mirrors `sentry::types::Scheme` as consumed by `dsn.scheme()`. -/
inductive Scheme where
  | http
  | https
deriving DecidableEq, Repr

/-- Modelled from the spec: the DSN (endpoint descriptor) collaborator is
out of view; the spec says it provides the scheme, an authentication value
and the envelope submission URL. -/
structure Dsn where
  scheme : Scheme
  authToken : String
  envelopeUrl : String
deriving DecidableEq, Repr

/-- Modelled from the spec: `dsn.to_auth(Some(&user_agent)).to_string()` —
the authentication header value, a function of the DSN and the user agent. -/
def dsnToAuth (d : Dsn) (userAgent : String) : String :=
  d.authToken ++ "," ++ userAgent

/-- Modelled from the spec: `dsn.envelope_api_url().to_string()` — the
submission URL, a function of the DSN. -/
def dsnEnvelopeApiUrl (d : Dsn) : String :=
  d.envelopeUrl

/-- Modelled from the spec: the fields of `ClientOptions` that
`UreqHttpTransport::new_internal` reads. -/
structure ClientOptions where
  dsn : Option Dsn
  http_proxy : Option String
  https_proxy : Option String
  accept_invalid_certs : Bool
  user_agent : String
deriving DecidableEq, Repr

/-- Modelled from the spec: the options default leaves TLS verification
enabled (`accept_invalid_certs` defaults to unset/false) and configures no
DSN and no proxies. -/
def defaultClientOptions : ClientOptions :=
  { dsn := none
    http_proxy := none
    https_proxy := none
    accept_invalid_certs := false
    user_agent := "sentry.rust" }

deriving instance DecidableEq for Except

/-- An envelope, carried together with the result of serializing it
(`Envelope::to_writer` into a byte buffer): `Except.ok body` on success,
`Except.error e` when serialization fails. -/
structure Envelope where
  to_writer : Except String (List Nat)
deriving DecidableEq, Repr

/-- The agent configuration the transport resolves at construction:
a TLS-verification toggle and at most one proxy.  Mirrors what
`Agent::config_builder()...build()` is fed in `new_internal`. -/
structure Agent where
  tlsDisableVerification : Bool
  proxy : Option String
deriving DecidableEq, Repr

/-- Proxy selection, embedding the `match (scheme, &options.http_proxy,
&options.https_proxy)` in `new_internal`.  `parse` stands for the external
`ureq::Proxy::new`: `some p` when the string parses validly, `none` when it
is invalid (in the source the `Err` arm only logs).  Arms are tried in
source order, first match wins. -/
def selectProxy (parse : String → Option String) (scheme : Scheme)
    (http_proxy https_proxy : Option String) : Option String :=
  match scheme, http_proxy, https_proxy with
  | Scheme.https, _, some proxy => parse proxy
  | _, some proxy, _ => parse proxy
  | _, _, _ => none

/-- Proxy selection as the spec's words state it (spec 4.1 / claim C1):
secure scheme with a validly parsing secure proxy wins; otherwise a validly
parsing general proxy is used; otherwise none — so an invalid string at the
first step falls through to the second. -/
def selectProxySpec (parse : String → Option String) (scheme : Scheme)
    (http_proxy https_proxy : Option String) : Option String :=
  if scheme = Scheme.https ∧ (https_proxy.bind parse).isSome then
    https_proxy.bind parse
  else
    http_proxy.bind parse

/-- The agent the transport builds for itself (the `unwrap_or_else` closure
in `new_internal`): TLS verification disabled exactly when
`options.accept_invalid_certs` is set, and the proxy chosen by
`selectProxy`. -/
def buildAgent (parse : String → Option String) (options : ClientOptions)
    (scheme : Scheme) : Agent :=
  { tlsDisableVerification := options.accept_invalid_certs
    proxy := selectProxy parse scheme options.http_proxy options.https_proxy }

/-- Everything `new_internal` resolves at construction time. -/
structure TransportConfig where
  agent : Agent
  auth : String
  url : String
deriving DecidableEq, Repr

namespace UreqHttpTransport

/-- `UreqHttpTransport::new_internal`.  Returns `none` where the Rust code
panics (`options.dsn.as_ref().unwrap()` with no DSN); otherwise resolves
the agent (the supplied one, or a freshly built one), auth and URL. -/
def new_internal (parse : String → Option String) (options : ClientOptions)
    (agent : Option Agent) : Option TransportConfig :=
  match options.dsn with
  | none => none
  | some dsn =>
    let a :=
      match agent with
      | some a => a
      | none => buildAgent parse options dsn.scheme
    some { agent := a
           auth := dsnToAuth dsn options.user_agent
           url := dsnEnvelopeApiUrl dsn }

/-- `UreqHttpTransport::new`. -/
def new (parse : String → Option String) (options : ClientOptions) :
    Option TransportConfig :=
  new_internal parse options none

/-- `UreqHttpTransport::with_agent`. -/
def with_agent (parse : String → Option String) (options : ClientOptions)
    (agent : Agent) : Option TransportConfig :=
  new_internal parse options (some agent)

end UreqHttpTransport

/-- A sample parse behaviour for `ureq::Proxy::new`: only the string
`"good"` parses validly. -/
def parseSample : String → Option String :=
  fun s => if s = "good" then some s else none

/-- C1 (counterexample): with a secure scheme, an invalid secure proxy and
a valid general proxy, the code configures no proxy, while the claimed
fall-through would select the general proxy. -/
theorem selectProxy_no_fallthrough_cex :
    selectProxy parseSample Scheme.https (some "good") (some "bad") = none ∧
    selectProxySpec parseSample Scheme.https (some "good") (some "bad") =
      some "good" := by
  constructor <;> decide

/-- C1 (amended): if the scheme is secure and a secure proxy is present,
that string alone decides the outcome — valid means it is used, invalid
means no proxy at all (no fall-through); only when the scheme is plain or
the secure proxy is absent is a present general proxy consulted, used iff
valid; with neither present no proxy is configured; and no proxy string,
valid or invalid, ever aborts construction (with a DSN present,
construction succeeds regardless of parsing). -/
theorem selectProxy_characterization (parse : String → Option String)
    (scheme : Scheme) (hp hsp : Option String) :
    (∀ p, scheme = Scheme.https → hsp = some p →
      selectProxy parse scheme hp hsp = parse p) ∧
    (∀ p, (scheme = Scheme.http ∨ hsp = none) → hp = some p →
      selectProxy parse scheme hp hsp = parse p) ∧
    (hp = none → hsp = none → selectProxy parse scheme hp hsp = none) ∧
    (∀ options : ClientOptions, ∀ d, options.dsn = some d →
      (UreqHttpTransport.new parse options).isSome) := by
  refine ⟨?_, ?_, ?_, ?_⟩
  · rintro p rfl rfl
    cases hp <;> rfl
  · rintro p h rfl
    rcases h with h | h
    · subst h; cases hsp <;> rfl
    · subst h; cases scheme <;> rfl
  · rintro rfl rfl
    cases scheme <;> rfl
  · intro options d hd
    simp [UreqHttpTransport.new, UreqHttpTransport.new_internal, hd]

/-- C1 (witness for the amended theorem): concrete evaluations of the
characterization. -/
theorem selectProxy_characterization_witness :
    selectProxy parseSample Scheme.https none (some "good") = some "good" ∧
    selectProxy parseSample Scheme.http (some "good") (some "bad") =
      some "good" := by
  constructor
  · exact (selectProxy_characterization parseSample Scheme.https none
      (some "good")).1 "good" rfl rfl
  · exact (selectProxy_characterization parseSample Scheme.http (some "good")
      (some "bad")).2.1 "good" (Or.inl rfl) rfl

/-- An HTTP response as the delivery closure consumes it: the status code,
the headers (each value `some s` when convertible to a string via
`to_str().ok()`, `none` otherwise), and the result of
`response.body_mut().read_to_string()`. -/
structure HttpResponse where
  status : Nat
  headers : List (String × Option String)
  bodyRead : Except String String
deriving DecidableEq, Repr

/-- `header_str` from the delivery closure:
`response.headers().get(key)?.to_str().ok()` — the first header with that
name, if its value converts to a string. -/
def header_str (response : HttpResponse) (key : String) : Option String :=
  match response.headers.lookup key with
  | none => none
  | some v => v

/-- The rate-limiter method the closure invokes on the response. -/
inductive RlAction where
  | update_from_sentry_header (s : String)
  | update_from_retry_after (s : String)
  | update_from_429
deriving DecidableEq, Repr

/-- An observable step of the delivery closure, in execution order. -/
inductive Event where
  | httpPost (url : String) (body : List Nat)
  | rl (a : RlAction)
  | readBody (r : Except String String)
  | debugLog (msg : String)
deriving DecidableEq, Repr

/-- Outcome of one run of the delivery closure: either it panicked (the
`unwrap` on serialization), or it returned, with the trace of events it
performed. -/
inductive DeliverResult where
  | panicked (events : List Event)
  | returned (events : List Event)
deriving DecidableEq, Repr

/-- The result of `agent.post(&url)...send(&body)`: a response, or a
transport-level error. -/
inductive RequestResult where
  | ok (response : HttpResponse)
  | err (msg : String)
deriving DecidableEq, Repr

/-- The `if let Some(..) = header_str(.., "x-sentry-rate-limits") ... else
if let Some(..) = header_str(.., "retry-after") ... else if status == 429`
chain: which rate-limiter update the closure performs, if any. -/
def rlDecision (response : HttpResponse) : Option RlAction :=
  match header_str response "x-sentry-rate-limits" with
  | some sentry_header => some (RlAction.update_from_sentry_header sentry_header)
  | none =>
    match header_str response "retry-after" with
    | some retry_after => some (RlAction.update_from_retry_after retry_after)
    | none =>
      if response.status = 429 then some RlAction.update_from_429 else none

/-- The rate-limiter events the closure emits for a received response. -/
def rlTrace (response : HttpResponse) : List Event :=
  match rlDecision response with
  | some a => [Event.rl a]
  | none => []

/-- The events of the body drain: the read itself, then the debug log of
its outcome (`Failed to read sentry response` on error, `Get response`
on success); neither fails the attempt. -/
def readTrace (r : Except String String) : List Event :=
  match r with
  | Except.error e =>
    [Event.readBody (Except.error e),
     Event.debugLog ("Failed to read sentry response: " ++ e)]
  | Except.ok text =>
    [Event.readBody (Except.ok text),
     Event.debugLog ("Get response: " ++ text)]

/-- The delivery closure handed to `TransportThread::new`.  It serializes
the envelope (`to_writer(..).unwrap()` — a panic on failure), posts the
body once, and on a response runs the rate-limit chain and then drains the
body; on a transport-level error it only logs.  `net` is the outcome of
the single network call. -/
def deliver (url : String) (envelope : Envelope) (net : RequestResult) :
    DeliverResult :=
  match envelope.to_writer with
  | Except.error _ => DeliverResult.panicked []
  | Except.ok body =>
    match net with
    | RequestResult.ok response =>
      DeliverResult.returned
        (Event.httpPost url body :: rlTrace response ++ readTrace response.bodyRead)
    | RequestResult.err e =>
      DeliverResult.returned
        [Event.httpPost url body, Event.debugLog ("Failed to send envelope: " ++ e)]

/-- Whether an event is a rate-limiter mutation. -/
def Event.isRl : Event → Bool
  | Event.rl _ => true
  | _ => false

/-- Whether an event is an HTTP post (a delivery attempt on the wire). -/
def Event.isPost : Event → Bool
  | Event.httpPost _ _ => true
  | _ => false

/-- The events a closure run performed (empty for the pre-request panic). -/
def DeliverResult.events : DeliverResult → List Event
  | DeliverResult.panicked es => es
  | DeliverResult.returned es => es

/-- Whether the closure run panicked. -/
def DeliverResult.crashed : DeliverResult → Bool
  | DeliverResult.panicked _ => true
  | DeliverResult.returned _ => false

/-- C2 (code evaluated at the failing input): an envelope whose
serialization fails makes the delivery closure panic — `to_writer(..)
.unwrap()` — before any request is made, crashing the worker thread
rather than aborting only that submission. -/
theorem deliver_panics_on_malformed_envelope :
    deliver "https://sentry.example/api/1/envelope/"
      { to_writer := Except.error "malformed" }
      (RequestResult.err "unused") = DeliverResult.panicked [] := rfl

/-- The rate-limiter events of a full received-response trace are exactly
its rate-limiter segment: the post, the body read and the logs contribute
none. -/
lemma rl_filter_trace (url : String) (body : List Nat)
    (response : HttpResponse) :
    (Event.httpPost url body :: rlTrace response ++
        readTrace response.bodyRead).filter Event.isRl = rlTrace response := by
  cases hdec : rlDecision response <;>
    cases hr : response.bodyRead <;>
      simp [rlTrace, readTrace, hdec, hr, Event.isRl]

/-- C3: for every received response the closure chooses exactly one
rate-limiter action by strict priority, first match winning: a
string-convertible `x-sentry-rate-limits` header updates from it and the
later checks are not consulted; else a `retry-after` header updates from
it; else status 429 applies the default backoff; else the rate limiter is
not mutated — and the trace carries exactly the chosen action. -/
theorem rate_limit_priority (response : HttpResponse) :
    (∀ s, header_str response "x-sentry-rate-limits" = some s →
      rlDecision response = some (RlAction.update_from_sentry_header s)) ∧
    (∀ s, header_str response "x-sentry-rate-limits" = none →
      header_str response "retry-after" = some s →
      rlDecision response = some (RlAction.update_from_retry_after s)) ∧
    (header_str response "x-sentry-rate-limits" = none →
      header_str response "retry-after" = none → response.status = 429 →
      rlDecision response = some RlAction.update_from_429) ∧
    (header_str response "x-sentry-rate-limits" = none →
      header_str response "retry-after" = none → response.status ≠ 429 →
      rlDecision response = none) ∧
    (∀ url envelope body net, envelope.to_writer = Except.ok body →
      net = RequestResult.ok response →
      (deliver url envelope net).events.filter Event.isRl =
        (rlDecision response).elim [] (fun a => [Event.rl a])) := by
  refine ⟨?_, ?_, ?_, ?_, ?_⟩
  · intro s hs
    simp [rlDecision, hs]
  · intro s hnone hs
    simp [rlDecision, hnone, hs]
  · intro h1 h2 h429
    simp [rlDecision, h1, h2, h429]
  · intro h1 h2 h429
    simp [rlDecision, h1, h2, h429]
  · intro url envelope body net hser hnet
    subst hnet
    simp only [deliver, hser, DeliverResult.events]
    rw [rl_filter_trace]
    cases hdec : rlDecision response <;> simp [rlTrace, hdec]

/-- A sample response carrying the spec's example rate-limit header. -/
def responseSample : HttpResponse :=
  { status := 200
    headers := [("x-sentry-rate-limits", some "60:error, 120:transaction"),
                ("retry-after", some "30")]
    bodyRead := Except.ok "" }

/-- C3 (witness): on a response with both `x-sentry-rate-limits` and
`retry-after`, the sentry header wins. -/
theorem rate_limit_priority_witness :
    rlDecision responseSample =
      some (RlAction.update_from_sentry_header "60:error, 120:transaction") :=
  (rate_limit_priority responseSample).1 "60:error, 120:transaction" rfl

/-- C5: when the single network call fails at the transport level, the
closure returns normally with exactly one delivery attempt on the wire, no
rate-limiter mutation, no retry, and only a debug log of the error. -/
theorem transport_error_logged_only (url : String) (envelope : Envelope)
    (body : List Nat) (msg : String)
    (h : envelope.to_writer = Except.ok body) :
    deliver url envelope (RequestResult.err msg) =
      DeliverResult.returned
        [Event.httpPost url body,
         Event.debugLog ("Failed to send envelope: " ++ msg)] ∧
    (deliver url envelope (RequestResult.err msg)).crashed = false ∧
    (deliver url envelope (RequestResult.err msg)).events.filter Event.isRl
      = [] ∧
    ((deliver url envelope (RequestResult.err msg)).events.filter
      Event.isPost).length = 1 := by
  refine ⟨?_, ?_, ?_, ?_⟩ <;>
    simp [deliver, h, DeliverResult.crashed, DeliverResult.events,
      Event.isRl, Event.isPost]

/-- A sample well-formed envelope. -/
def envelopeSample : Envelope :=
  { to_writer := Except.ok [1, 2, 3] }

/-- C5 (witness): concrete evaluation of the transport-failure path. -/
theorem transport_error_logged_only_witness :
    deliver "https://sentry.example/api/1/envelope/" envelopeSample
      (RequestResult.err "connection refused") =
      DeliverResult.returned
        [Event.httpPost "https://sentry.example/api/1/envelope/" [1, 2, 3],
         Event.debugLog ("Failed to send envelope: " ++ "connection refused")] :=
  (transport_error_logged_only "https://sentry.example/api/1/envelope/"
    envelopeSample [1, 2, 3] "connection refused" rfl).1

/-- C6: for every received response the closure's trace is the post, then
the rate-limiter events, then the body read and its log — the body is
drained after the rate-limiter update; a read failure yields only a debug
log, the run still returns (never panics there), and the rate-limiter
events are the same as for any response agreeing on status and headers
(the read outcome does not affect the update already performed). -/
theorem body_drained_after_rate_limit (url : String) (envelope : Envelope)
    (body : List Nat) (response : HttpResponse)
    (h : envelope.to_writer = Except.ok body) :
    deliver url envelope (RequestResult.ok response) =
      DeliverResult.returned
        (Event.httpPost url body :: rlTrace response ++
          readTrace response.bodyRead) ∧
    (deliver url envelope (RequestResult.ok response)).crashed = false ∧
    (∀ e, response.bodyRead = Except.error e →
      readTrace response.bodyRead =
        [Event.readBody (Except.error e),
         Event.debugLog ("Failed to read sentry response: " ++ e)]) ∧
    (∀ response2 : HttpResponse, response2.status = response.status →
      response2.headers = response.headers →
      (deliver url envelope (RequestResult.ok response2)).events.filter
          Event.isRl =
        (deliver url envelope (RequestResult.ok response)).events.filter
          Event.isRl) := by
  refine ⟨?_, ?_, ?_, ?_⟩
  · simp [deliver, h]
  · simp [deliver, h, DeliverResult.crashed]
  · intro e he
    simp [readTrace, he]
  · intro response2 hst hhd
    have hdec : rlDecision response2 = rlDecision response := by
      simp [rlDecision, header_str, hst, hhd]
    simp only [deliver, h, DeliverResult.events]
    rw [rl_filter_trace, rl_filter_trace]
    simp [rlTrace, hdec]

/-- A sample response whose body read fails. -/
def responseReadErr : HttpResponse :=
  { status := 200
    headers := [("retry-after", some "30")]
    bodyRead := Except.error "unexpected eof" }

/-- C6 (witness): concrete evaluation of the received-response trace with a
failing body read. -/
theorem body_drained_after_rate_limit_witness :
    deliver "https://sentry.example/api/1/envelope/" envelopeSample
      (RequestResult.ok responseReadErr) =
      DeliverResult.returned
        (Event.httpPost "https://sentry.example/api/1/envelope/" [1, 2, 3] ::
          rlTrace responseReadErr ++ readTrace responseReadErr.bodyRead) :=
  (body_drained_after_rate_limit "https://sentry.example/api/1/envelope/"
    envelopeSample [1, 2, 3] responseReadErr rfl).1

/-- Modelled from the spec: the delivery worker's phases,
`Running → Draining → Stopped` (the worker itself, `TransportThread` in
`transports/thread.rs`, is outside the file under study). -/
inductive Phase where
  | running
  | draining
  | stopped
deriving DecidableEq, Repr

/-- Modelled from the spec: the delivery worker's state — its phase, the
FIFO queue of pending envelopes, and (for observation) the envelopes whose
delivery was attempted on the network. -/
structure Worker where
  phase : Phase
  queue : List Envelope
  delivered : List Envelope
deriving DecidableEq, Repr

/-- Modelled from the spec: `enqueue(envelope) -> accepted: bool` — in
`Running` the envelope is appended and accepted; in `Draining` new
enqueues are not accepted; in `Stopped` the send is dropped (logged)
without error.  Total: a send never crashes. -/
def Worker.enqueue (w : Worker) (e : Envelope) : Bool × Worker :=
  match w.phase with
  | Phase.running => (true, { w with queue := w.queue ++ [e] })
  | Phase.draining => (false, w)
  | Phase.stopped => (false, w)

/-- Modelled from the spec: `flush(timeout) -> bool` — the worker drains
the queue observed at flush time, attempting deliveries in FIFO order up
to the deadline; the timeout is abstracted as a budget of deliveries that
fit before it elapses.  Returns true iff the queue drained in time.  The
phase is untouched: flushing does not stop the worker. -/
def Worker.flush (w : Worker) (budget : Nat) : Bool × Worker :=
  let k := min budget w.queue.length
  (decide (w.queue.length ≤ budget),
   { w with queue := w.queue.drop k, delivered := w.delivered ++ w.queue.take k })

/-- Modelled from the spec: the worker contract's
`shutdown(timeout) -> bool` — semantically flush, then transition to
`Stopped` regardless of the flush outcome. -/
def Worker.workerShutdown (w : Worker) (budget : Nat) : Bool × Worker :=
  let r := w.flush budget
  (r.1, { r.2 with phase := Phase.stopped })

/-- Modelled from the spec: one autonomous step of the worker loop — while
not stopped it pulls the next queued envelope and attempts its delivery;
once stopped it does nothing. -/
def Worker.step (w : Worker) : Worker :=
  match w.phase, w.queue with
  | Phase.stopped, _ => w
  | _, [] => w
  | _, e :: rest =>
    { w with queue := rest, delivered := w.delivered ++ [e] }

namespace UreqHttpTransport

/-- `Transport::send_envelope` for `UreqHttpTransport`:
`self.thread.send(envelope)` — the worker enqueue, its acceptance boolean
discarded, nothing returned to the caller. -/
def send_envelope (w : Worker) (e : Envelope) : Unit × Worker :=
  ((), (w.enqueue e).2)

/-- `Transport::flush` for `UreqHttpTransport`: `self.thread.flush(timeout)`,
the worker's boolean returned unchanged. -/
def flush (w : Worker) (budget : Nat) : Bool × Worker :=
  w.flush budget

/-- `Transport::shutdown` for `UreqHttpTransport`: `self.flush(timeout)` —
a flush, nothing more. -/
def shutdown (w : Worker) (budget : Nat) : Bool × Worker :=
  flush w budget

end UreqHttpTransport

/-- C7: the facade is pure delegation — `send_envelope` performs exactly
the worker's enqueue, discards its boolean and returns nothing; `flush`
returns exactly the worker flush's boolean and state; `shutdown` delegates
to the facade's own flush and so returns exactly the worker flush's
boolean and state; no further state or transformation exists in the
facade. -/
theorem facade_pure_delegation (w : Worker) (e : Envelope) (t : Nat) :
    UreqHttpTransport.send_envelope w e = ((), (w.enqueue e).2) ∧
    UreqHttpTransport.flush w t = w.flush t ∧
    UreqHttpTransport.shutdown w t = UreqHttpTransport.flush w t ∧
    UreqHttpTransport.shutdown w t = w.flush t :=
  ⟨rfl, rfl, rfl, rfl⟩

/-- C4 (counterexample): from a running worker with an empty queue,
`shutdown` leaves the phase `running` (not `Stopped`), and an envelope
sent afterwards is accepted and is delivered to the network by the next
worker step — contradicting both the claimed transition to `Stopped` and
the claim that a post-shutdown send never reaches the network. -/
theorem shutdown_not_stopped_cex :
    ((UreqHttpTransport.shutdown ⟨Phase.running, [], []⟩ 4).2).phase =
      Phase.running ∧
    (((UreqHttpTransport.send_envelope
        ((UreqHttpTransport.shutdown ⟨Phase.running, [], []⟩ 4).2)
        envelopeSample).2).step).delivered = [envelopeSample] := by
  constructor <;> rfl

/-- C4 (amended): `shutdown(timeout)` performs exactly a flush and returns
its boolean; it leaves the worker's phase unchanged — in particular it
never transitions the worker to `Stopped`, so a subsequent send is
accepted whenever the phase admitted sends before, and its envelope can
still reach the network. -/
theorem shutdown_is_flush_only (w : Worker) (t : Nat) :
    UreqHttpTransport.shutdown w t = w.flush t ∧
    ((UreqHttpTransport.shutdown w t).2).phase = w.phase :=
  ⟨rfl, rfl⟩

/-- C8: when the transport builds its own agent, TLS certificate
verification is disabled exactly when `accept_invalid_certs` is set —
`disable_verification(options.accept_invalid_certs)` — and with the
default options (the field unset) verification stays enabled. -/
theorem tls_verification_toggle (parse : String → Option String)
    (options : ClientOptions) (scheme : Scheme) :
    (buildAgent parse options scheme).tlsDisableVerification =
      options.accept_invalid_certs ∧
    defaultClientOptions.accept_invalid_certs = false ∧
    (buildAgent parse defaultClientOptions scheme).tlsDisableVerification =
      false :=
  ⟨rfl, rfl, rfl⟩

/-- C9: construction via `new` or `with_agent` reads `options.dsn` through
`unwrap`: with no DSN it panics (modelled as `none`), and with any DSN
present the unwrap cannot fire and construction yields a transport. -/
theorem construction_requires_dsn (parse : String → Option String)
    (options : ClientOptions) (agent : Agent) :
    (options.dsn = none →
      UreqHttpTransport.new parse options = none ∧
      UreqHttpTransport.with_agent parse options agent = none) ∧
    (∀ d, options.dsn = some d →
      (UreqHttpTransport.new parse options).isSome ∧
      (UreqHttpTransport.with_agent parse options agent).isSome) := by
  constructor
  · intro h
    constructor <;>
      simp [UreqHttpTransport.new, UreqHttpTransport.with_agent,
        UreqHttpTransport.new_internal, h]
  · intro d h
    constructor <;>
      simp [UreqHttpTransport.new, UreqHttpTransport.with_agent,
        UreqHttpTransport.new_internal, h]

/-- A sample agent supplied by a caller. -/
def agentSample : Agent :=
  { tlsDisableVerification := false, proxy := none }

/-- A sample DSN. -/
def dsnSample : Dsn :=
  { scheme := Scheme.https, authToken := "k",
    envelopeUrl := "https://sentry.example/api/1/envelope/" }

/-- Sample options carrying a DSN. -/
def optionsWithDsn : ClientOptions :=
  { defaultClientOptions with dsn := some dsnSample }

/-- C9 (witness): with the default options (no DSN), construction
panics; with a DSN added, it succeeds. -/
theorem construction_requires_dsn_witness :
    UreqHttpTransport.new parseSample defaultClientOptions = none ∧
    (UreqHttpTransport.new parseSample optionsWithDsn).isSome := by
  constructor
  · exact ((construction_requires_dsn parseSample defaultClientOptions
      agentSample).1 rfl).1
  · exact (((construction_requires_dsn parseSample optionsWithDsn
      agentSample).2 dsnSample rfl)).1

/-- C10: with a caller-supplied agent, the proxy options, the
TLS-verification option and even the proxy parser are never consulted: two
options values differing only in `http_proxy`, `https_proxy` and
`accept_invalid_certs` (under any two parse behaviours) construct
identical transports. -/
theorem with_agent_ignores_proxy_tls (parse parse2 : String → Option String)
    (options : ClientOptions) (agent : Agent) (p q : Option String)
    (b : Bool) :
    UreqHttpTransport.with_agent parse
        { options with http_proxy := p, https_proxy := q,
                       accept_invalid_certs := b } agent =
      UreqHttpTransport.with_agent parse2 options agent := by
  cases h : options.dsn <;>
    simp [UreqHttpTransport.with_agent, UreqHttpTransport.new_internal, h]
